import Mathlib

/-!
# Verification of the rule-based trajectory analysis engine

Shallow embedding of `src/backend/main.py` (the only source file of the
repository `ai-longitudinal-detector`).

Modelling conventions:
* Python strings are modelled as `List Char` (`Str` below).  `str.lower()`
  is `Char.toLower` mapped over the characters, `str.strip()` drops
  whitespace at both ends, and the Python substring test `needle in hay`
  is list-infix containment.
* Calendar dates are modelled as natural numbers: the engine only ever
  compares dates for order, which is total for `datetime.date`.
* `outcome_score` is an `Optional[float]` in the source; it is modelled as
  `Option ℚ`.  The only arithmetic performed on scores by the engine is
  one subtraction and one comparison against the literal `1.0`, which on
  the score values relevant here are exact in both `float` and `ℚ`.
* Python integers are modelled as `Int` (severity levels).
* The in-memory dict `PATIENT_STORE` is modelled as a partial map
  `String → Option (List Visit)`.
-/

namespace LongDetector

/-- Python strings, as lists of characters. -/
abbrev Str := List Char

/-- Python `str.lower()`. -/
def lower (s : Str) : Str := s.map Char.toLower

/-- Python `str.strip()`: drop whitespace from both ends. -/
def strip (s : Str) : Str :=
  ((s.dropWhile Char.isWhitespace).reverse.dropWhile Char.isWhitespace).reverse

/-- Python's `needle in hay` substring test (on already-lowered text). -/
def containsSub (needle : String) (hay : Str) : Bool :=
  decide (needle.toList <:+: hay)

/-- The single-quote character, used by Python `repr` on ordinary strings. -/
def sq : Char := Char.ofNat 39

/-- Python `repr(s)` for the strings interpolated into issue messages:
`repr` wraps the text in single quotes (none of the analysed strings need
escaping, which the engine never relies on anyway). -/
def pyRepr (s : Str) : Str := sq :: (s ++ [sq])

/-- The `class Visit(BaseModel)` model from `src/backend/main.py`. -/
structure Visit where
  date : Nat
  diagnosis : Str
  treatment : Str
  outcome_score : Option ℚ := none
  notes : Option Str := none
deriving DecidableEq, Repr

/-- The `class Issue(BaseModel)` model from `src/backend/main.py`. -/
structure Issue where
  type : Str
  message : Str
  related_dates : List Nat
deriving DecidableEq, Repr

/-- Embedding of `_severity_from_diagnosis` from `src/backend/main.py`, lines 56-79:
the ordered `if`-chain of substring checks over the lowered diagnosis. -/
def severity_from_diagnosis (diagnosis : Str) : Option Int :=
  let diag := lower diagnosis
  if containsSub "advanced diabetic nephropathy" diag then some 4
  else if containsSub "nephropathy" diag then some 3
  else if containsSub "diabetes" diag || containsSub "diabetic" diag then
    (if containsSub "pre" diag then some 1 else some 2)
  else if containsSub "prediabetes" diag then some 1
  else if containsSub "normal" diag then some 0
  else none

/-- Variant of `_severity_from_diagnosis` with the standalone `"prediabetes"` branch
(source lines 73-74) deleted; used to state its unreachability. -/
def severity_from_diagnosis_nopre (diagnosis : Str) : Option Int :=
  let diag := lower diagnosis
  if containsSub "advanced diabetic nephropathy" diag then some 4
  else if containsSub "nephropathy" diag then some 3
  else if containsSub "diabetes" diag || containsSub "diabetic" diag then
    (if containsSub "pre" diag then some 1 else some 2)
  else if containsSub "normal" diag then some 0
  else none

/-- Message of the pairwise severity-jump rule (source lines 110-113). -/
def drift_message (vprev vcurr : Visit) : Str :=
  "Sudden diagnosis severity change from ".toList ++ pyRepr vprev.diagnosis
    ++ " to ".toList ++ pyRepr vcurr.diagnosis
    ++ ". Possible missed progression or mislabeling.".toList

/-- One iteration of the loop at source lines 103-116 ("sudden jumps in
severity between consecutive visits"), for the consecutive pair
`(vprev, vcurr)`; the precomputed `severities` array is inlined since
`_severity_from_diagnosis` is pure. -/
def drift_pair (vprev vcurr : Visit) : List Issue :=
  match severity_from_diagnosis vprev.diagnosis,
        severity_from_diagnosis vcurr.diagnosis with
  | some s_prev, some s_curr =>
      if 2 ≤ (s_curr - s_prev).natAbs then
        [{ type := "diagnosis_drift".toList,
           message := drift_message vprev vcurr,
           related_dates := [vprev.date, vcurr.date] }]
      else []
  | _, _ => []

/-- Fixed message of the dip-then-spike rule (source lines 126-129). -/
def missed_progression_message : Str :=
  ("Potential missed progression: diagnosis improved and then worsened sharply. "
    ++ "Review middle visit for possible misclassification or under-diagnosis.").toList

/-- One iteration of the loop at source lines 119-136 (the
"dip then spike" pattern) for the consecutive triple `(vp, vm, vn)`.
The source condition is `s_prev > s_mid and s_next >= s_prev + 1`. -/
def dip_spike_triple (vp vm vn : Visit) : List Issue :=
  match severity_from_diagnosis vp.diagnosis,
        severity_from_diagnosis vm.diagnosis,
        severity_from_diagnosis vn.diagnosis with
  | some s_prev, some s_mid, some s_next =>
      if s_mid < s_prev ∧ s_prev + 1 ≤ s_next then
        [{ type := "diagnosis_drift".toList,
           message := missed_progression_message,
           related_dates := [vp.date, vm.date, vn.date] }]
      else []
  | _, _, _ => []

/-- Message of the mild-treatment rule (source lines 151-153). -/
def mild_treatment_message (v : Visit) : Str :=
  "High-severity diagnosis (".toList ++ pyRepr v.diagnosis
    ++ ") but treatment looks mild (".toList ++ pyRepr v.treatment
    ++ "). Check if escalation of therapy is needed.".toList

/-- Message of the no-treatment rule (source lines 164-166). -/
def no_treatment_message (v : Visit) : Str :=
  "Diagnosis ".toList ++ pyRepr v.diagnosis
    ++ " has no clear treatment documented. Verify if treatment is missing from the record.".toList

/-- Message of the aggressive-treatment rule (source lines 177-179). -/
def aggressive_treatment_message (v : Visit) : Str :=
  "Low-severity diagnosis (".toList ++ pyRepr v.diagnosis
    ++ ") with aggressive treatment (".toList ++ pyRepr v.treatment
    ++ "). Check if diagnosis severity or treatment plan is documented correctly.".toList

/-- One iteration of the treatment-contradiction loop (source lines
139-183): the three independent per-visit checks, skipped entirely when
the severity is undefined (`if sev is None: continue`). -/
def treatment_issues (v : Visit) : List Issue :=
  let treat := lower v.treatment
  match severity_from_diagnosis v.diagnosis with
  | none => []
  | some sev =>
      (if 3 ≤ sev ∧
          (containsSub "diet" treat ∨ containsSub "lifestyle" treat ∨
            containsSub "exercise" treat) ∧
          ¬(containsSub "insulin" treat ∨ containsSub "metformin" treat ∨
            containsSub "ace inhibitor" treat ∨ containsSub "arb" treat) then
        [{ type := "treatment_contradiction".toList,
           message := mild_treatment_message v,
           related_dates := [v.date] }]
      else []) ++
      (if 2 ≤ sev ∧
          (strip treat = [] ∨ containsSub "no treatment" treat ∨
            containsSub "none" treat) then
        [{ type := "treatment_contradiction".toList,
           message := no_treatment_message v,
           related_dates := [v.date] }]
      else []) ++
      (if sev ≤ 1 ∧ (containsSub "insulin" treat ∨ containsSub "dialysis" treat) then
        [{ type := "treatment_contradiction".toList,
           message := aggressive_treatment_message v,
           related_dates := [v.date] }]
      else [])

/-- Message of the outcome-reversal rule (source lines 200-202). -/
def outcome_reversal_message (vcurr : Visit) : Str :=
  "Outcome score worsened but diagnosis text suggests improvement (".toList
    ++ pyRepr vcurr.diagnosis ++ "). Possible label-outcome mismatch.".toList

/-- One iteration of the outcome-reversal loop (source lines 187-206) for
the consecutive pair `(vprev, vcurr)`; the precomputed `scores` array is
inlined.  The source condition is
`curr_score - prev_score >= 1.0 and any(kw in diag_text for kw in [...])`. -/
def outcome_pair (vprev vcurr : Visit) : List Issue :=
  let diag_text := lower vcurr.diagnosis
  match vprev.outcome_score, vcurr.outcome_score with
  | some prev_score, some curr_score =>
      if 1 ≤ curr_score - prev_score ∧
          (containsSub "improved" diag_text ∨ containsSub "controlled" diag_text ∨
            containsSub "resolved" diag_text) then
        [{ type := "outcome_reversal".toList,
           message := outcome_reversal_message vcurr,
           related_dates := [vprev.date, vcurr.date] }]
      else []
  | _, _ => []

/-- Date order used by `sorted(visits, key=lambda v: v.date)`. -/
def dateLe (a b : Visit) : Prop := a.date ≤ b.date

instance : DecidableRel dateLe := fun a b => Nat.decLe a.date b.date

instance : IsTotal Visit dateLe := ⟨fun a b => Nat.le_total a.date b.date⟩

instance : IsTrans Visit dateLe := ⟨fun _ _ _ => Nat.le_trans⟩

instance : IsAntisymm Visit (fun a b : Visit => a.date < b.date) :=
  ⟨fun _ _ h1 h2 => absurd (Nat.lt_trans h1 h2) (Nat.lt_irrefl _)⟩

/-- Embedding of `sorted(visits, key=lambda v: v.date)` (source line 95).  Python's
`sorted` is the stable ascending sort by the key; insertion sort by the
total preorder `dateLe` computes exactly that list. -/
def sortVisits (vs : List Visit) : List Visit := vs.insertionSort dateLe

/-- The loop at source lines 103-116 over all consecutive pairs. -/
def pass_drift (vs : List Visit) : List Issue :=
  (vs.zip vs.tail).flatMap fun p => drift_pair p.1 p.2

/-- The loop at source lines 119-136 over all consecutive triples. -/
def pass_dip_spike (vs : List Visit) : List Issue :=
  (vs.zip (vs.tail.zip vs.tail.tail)).flatMap fun t => dip_spike_triple t.1 t.2.1 t.2.2

/-- The loop at source lines 139-183 over all visits. -/
def pass_treatment (vs : List Visit) : List Issue :=
  vs.flatMap treatment_issues

/-- The loop at source lines 187-206 over all consecutive pairs. -/
def pass_outcome (vs : List Visit) : List Issue :=
  (vs.zip vs.tail).flatMap fun p => outcome_pair p.1 p.2

/-- Embedding of `_analyze_timeline` from `src/backend/main.py`, lines 82-208: early
return on the empty list, stable sort by date, then the four rule loops
appending into one issue list in source order. -/
def analyze_timeline (visits : List Visit) : List Issue :=
  if visits = [] then []
  else
    let vs := sortVisits visits
    pass_drift vs ++ pass_dip_spike vs ++ pass_treatment vs ++ pass_outcome vs

/-- The patient store `PATIENT_STORE: Dict[str, List[Visit]]` (source
line 53), as a partial map from patient id to visit list. -/
abbrev StoreT := String → Option (List Visit)

/-- The store mutation performed by `add_visit` (source lines 235-244):
`PATIENT_STORE.setdefault(patient_id, [])` followed by
`visits.append(visit)`, i.e. the entry for `patient_id` becomes its old
value (or `[]` when absent) with `visit` appended, and no other key
changes. -/
def add_visit_store (store : StoreT) (patient_id : String) (visit : Visit) : StoreT :=
  fun q =>
    if q = patient_id then some ((store patient_id).getD [] ++ [visit])
    else store q

/-! ## Structural lemmas about the engine -/

theorem sortVisits_single (v : Visit) : sortVisits [v] = [v] := by
  simp [sortVisits, List.insertionSort, List.orderedInsert]

theorem sortVisits_pair (v1 v2 : Visit) (h : v1.date ≤ v2.date) :
    sortVisits [v1, v2] = [v1, v2] := by
  simp [sortVisits, List.insertionSort, List.orderedInsert, dateLe, h]

theorem sortVisits_triple (v1 v2 v3 : Visit) (h12 : v1.date ≤ v2.date)
    (h23 : v2.date ≤ v3.date) : sortVisits [v1, v2, v3] = [v1, v2, v3] := by
  simp [sortVisits, List.insertionSort, List.orderedInsert, dateLe, h12, h23,
    Nat.le_trans h12 h23]

theorem analyze_single (v : Visit) : analyze_timeline [v] = treatment_issues v := by
  simp [analyze_timeline, sortVisits_single, pass_drift, pass_dip_spike,
    pass_treatment, pass_outcome]

theorem analyze_pair (v1 v2 : Visit) (h : v1.date ≤ v2.date) :
    analyze_timeline [v1, v2] =
      drift_pair v1 v2 ++ (treatment_issues v1 ++ treatment_issues v2)
        ++ outcome_pair v1 v2 := by
  simp [analyze_timeline, sortVisits_pair v1 v2 h, pass_drift, pass_dip_spike,
    pass_treatment, pass_outcome]

theorem analyze_triple (v1 v2 v3 : Visit) (h12 : v1.date ≤ v2.date)
    (h23 : v2.date ≤ v3.date) :
    analyze_timeline [v1, v2, v3] =
      (drift_pair v1 v2 ++ drift_pair v2 v3) ++ dip_spike_triple v1 v2 v3
        ++ (treatment_issues v1 ++ treatment_issues v2 ++ treatment_issues v3)
        ++ (outcome_pair v1 v2 ++ outcome_pair v2 v3) := by
  simp [analyze_timeline, sortVisits_triple v1 v2 v3 h12 h23, pass_drift,
    pass_dip_spike, pass_treatment, pass_outcome]

theorem mem_drift_pair {vprev vcurr : Visit} {iss : Issue}
    (h : iss ∈ drift_pair vprev vcurr) :
    iss.type = "diagnosis_drift".toList ∧
      iss.related_dates = [vprev.date, vcurr.date] := by
  unfold drift_pair at h
  split at h
  · split at h
    · rcases List.mem_singleton.mp h with rfl; exact ⟨rfl, rfl⟩
    · cases h
  · cases h

theorem mem_dip_spike_triple {vp vm vn : Visit} {iss : Issue}
    (h : iss ∈ dip_spike_triple vp vm vn) :
    iss.type = "diagnosis_drift".toList ∧
      iss.message = missed_progression_message ∧
      iss.related_dates = [vp.date, vm.date, vn.date] := by
  unfold dip_spike_triple at h
  split at h
  · split at h
    · rcases List.mem_singleton.mp h with rfl; exact ⟨rfl, rfl, rfl⟩
    · cases h
  · cases h

theorem mem_treatment_issues {v : Visit} {iss : Issue}
    (h : iss ∈ treatment_issues v) :
    iss.type = "treatment_contradiction".toList ∧ iss.related_dates = [v.date] := by
  unfold treatment_issues at h
  split at h
  · cases h
  · simp only [List.mem_append] at h
    rcases h with (h | h) | h <;>
      (split at h
       · rcases List.mem_singleton.mp h with rfl; exact ⟨rfl, rfl⟩
       · cases h)

theorem mem_outcome_pair {vprev vcurr : Visit} {iss : Issue}
    (h : iss ∈ outcome_pair vprev vcurr) :
    iss.type = "outcome_reversal".toList ∧
      iss.related_dates = [vprev.date, vcurr.date] := by
  unfold outcome_pair at h
  split at h
  · dsimp only at h
    split at h
    · rcases List.mem_singleton.mp h with rfl; exact ⟨rfl, rfl⟩
    · cases h
  · cases h

theorem mem_pass_drift {vs : List Visit} {iss : Issue} (h : iss ∈ pass_drift vs) :
    iss.type = "diagnosis_drift".toList := by
  unfold pass_drift at h
  rw [List.mem_flatMap] at h
  obtain ⟨p, -, hm⟩ := h
  exact (mem_drift_pair hm).1

theorem mem_pass_dip_spike {vs : List Visit} {iss : Issue}
    (h : iss ∈ pass_dip_spike vs) : iss.type = "diagnosis_drift".toList := by
  unfold pass_dip_spike at h
  rw [List.mem_flatMap] at h
  obtain ⟨t, -, hm⟩ := h
  exact (mem_dip_spike_triple hm).1

theorem mem_pass_treatment {vs : List Visit} {iss : Issue}
    (h : iss ∈ pass_treatment vs) : iss.type = "treatment_contradiction".toList := by
  unfold pass_treatment at h
  rw [List.mem_flatMap] at h
  obtain ⟨v, -, hm⟩ := h
  exact (mem_treatment_issues hm).1

theorem mem_pass_outcome {vs : List Visit} {iss : Issue}
    (h : iss ∈ pass_outcome vs) : iss.type = "outcome_reversal".toList := by
  unfold pass_outcome at h
  rw [List.mem_flatMap] at h
  obtain ⟨p, -, hm⟩ := h
  exact (mem_outcome_pair hm).1

theorem containsSub_mono {n m : String} {d : Str}
    (hnm : n.toList <:+: m.toList) (h : containsSub m d = true) :
    containsSub n d = true := by
  unfold containsSub at *
  exact decide_eq_true (hnm.trans (of_decide_eq_true h))

theorem pre_imp_dia {d : Str} (h : containsSub "prediabetes" d = true) :
    (containsSub "diabetes" d || containsSub "diabetic" d) = true := by
  have : containsSub "diabetes" d = true := containsSub_mono (by decide) h
  simp [this]

/-! ## Claim theorems -/

/-- C8: for every input string, `_severity_from_diagnosis` returns either
`None` or an integer in `{0, 1, 2, 3, 4}`; in particular it never
returns 5. -/
theorem severity_range (s : Str) :
    (severity_from_diagnosis s = none ∨
      ∃ k, severity_from_diagnosis s = some k ∧
        (k = 0 ∨ k = 1 ∨ k = 2 ∨ k = 3 ∨ k = 4)) ∧
    severity_from_diagnosis s ≠ some 5 := by
  unfold severity_from_diagnosis
  dsimp only
  split_ifs <;> simp

/-- C4 counterexample: the classifier maps "advanced diabetic nephropathy"
to severity 4, not 5 as the claim states, and "diabetes type 2" to 2,
not 3. -/
theorem severity_scale_cex :
    severity_from_diagnosis ("advanced diabetic nephropathy".toList) = some 4 ∧
    severity_from_diagnosis ("advanced diabetic nephropathy".toList) ≠ some 5 ∧
    severity_from_diagnosis ("diabetes type 2".toList) = some 2 ∧
    severity_from_diagnosis ("diabetes type 2".toList) ≠ some 3 := by
  refine ⟨by decide, by decide, by decide, by decide⟩

/-- C4 (amended): the classifier maps "advanced diabetic nephropathy" to
severity 4, a plain "nephropathy" match to 3, and "diabetes type 2" to 2
(via the generic diabetes branch), via first-match-wins ordered substring
search; any string containing "advanced diabetic nephropathy" classifies
as 4, never at the plain-nephropathy or generic-diabetes level. -/
theorem severity_priority (s : Str) :
    severity_from_diagnosis ("advanced diabetic nephropathy".toList) = some 4 ∧
    severity_from_diagnosis ("nephropathy".toList) = some 3 ∧
    severity_from_diagnosis ("diabetes type 2".toList) = some 2 ∧
    (containsSub "advanced diabetic nephropathy" (lower s) = true →
      severity_from_diagnosis s = some 4) := by
  refine ⟨by decide, by decide, by decide, fun h => ?_⟩
  unfold severity_from_diagnosis
  dsimp only
  rw [if_pos h]

theorem severity_priority_witness :
    severity_from_diagnosis ("severe advanced diabetic nephropathy stage two".toList)
      = some 4 :=
  (severity_priority ("severe advanced diabetic nephropathy stage two".toList)).2.2.2
    (by decide)

/-- C9: the standalone "prediabetes" branch of `_severity_from_diagnosis`
is unreachable: deleting it yields an extensionally equal classifier, and
for every input containing "prediabetes" (and not hitting the earlier
nephropathy branches) the generic diabetes branch already returns 1 via
its "pre" sub-check. -/
theorem prediabetes_branch_unreachable :
    (∀ s, severity_from_diagnosis_nopre s = severity_from_diagnosis s) ∧
    (∀ s, containsSub "prediabetes" (lower s) = true →
      containsSub "nephropathy" (lower s) = false →
      severity_from_diagnosis s = some 1) := by
  constructor
  · intro s
    unfold severity_from_diagnosis_nopre severity_from_diagnosis
    dsimp only
    split_ifs with h1 h2 h3 h4 h5 <;> try rfl
    all_goals exact absurd (pre_imp_dia (by assumption)) h3
  · intro s hpre hneph
    have hdia : (containsSub "diabetes" (lower s) || containsSub "diabetic" (lower s))
        = true := pre_imp_dia hpre
    have hpre3 : containsSub "pre" (lower s) = true :=
      containsSub_mono (by decide) hpre
    have hadv : ¬ containsSub "advanced diabetic nephropathy" (lower s) = true := by
      intro hb
      exact absurd
        (@containsSub_mono "nephropathy" "advanced diabetic nephropathy" (lower s)
          (by decide) hb)
        (by simp [hneph])
    unfold severity_from_diagnosis
    dsimp only
    rw [if_neg hadv, if_neg (by simp [hneph]), if_pos hdia, if_pos hpre3]

theorem prediabetes_branch_unreachable_witness :
    severity_from_diagnosis ("prediabetes".toList) = some 1 :=
  prediabetes_branch_unreachable.2 ("prediabetes".toList) (by decide) (by decide)

/-- C10: adding a visit for a patient rewrites only that patient's store
entry, appending exactly one visit at its end (creating a singleton entry
when the key is absent), and leaves every other key's entry unchanged. -/
theorem add_visit_frame (store : StoreT) (patient_id : String) (visit : Visit) :
    add_visit_store store patient_id visit patient_id
        = some ((store patient_id).getD [] ++ [visit]) ∧
    (store patient_id = none →
      add_visit_store store patient_id visit patient_id = some [visit]) ∧
    ∀ q, q ≠ patient_id → add_visit_store store patient_id visit q = store q := by
  refine ⟨by simp [add_visit_store], fun h => by simp [add_visit_store, h],
    fun q hq => by simp [add_visit_store, hq]⟩

def demoVisit : Visit :=
  { date := 3, diagnosis := "diabetes".toList, treatment := "metformin".toList }

def demoStore : StoreT :=
  fun q => if q = "alice" then some [demoVisit] else none

theorem add_visit_frame_witness :
    add_visit_store demoStore "bob" demoVisit "alice" = demoStore "alice" :=
  (add_visit_frame demoStore "bob" demoVisit).2.2 "alice" (by decide)

def cex1a : Visit :=
  { date := 1, diagnosis := "diabetes".toList, treatment := "metformin".toList }

def cex1b : Visit :=
  { date := 2, diagnosis := "nephropathy".toList, treatment := "metformin".toList }

/-- C1 counterexample: two consecutive visits whose severities strictly
increase from 2 to 3 produce no issue at all — the code only fires the
drift rule on jumps of at least 2 levels, so "every strict severity
increase emits a diagnosis_drift issue" is false. -/
theorem pass1_strict_increase_cex :
    severity_from_diagnosis cex1a.diagnosis = some 2 ∧
    severity_from_diagnosis cex1b.diagnosis = some 3 ∧
    cex1a.date ≤ cex1b.date ∧
    analyze_timeline [cex1a, cex1b] = [] := by decide

/-- C1 (amended): for a date-sorted pair of visits with both severities
defined, the analyzer emits a diagnosis_drift issue iff the absolute
severity change is at least 2 (one fixed-form message; no
worsened/improved distinction, and a change of exactly one level emits
nothing). -/
theorem pass1_jump_iff (v1 v2 : Visit) (sp sc : Int)
    (hd : v1.date ≤ v2.date)
    (h1 : severity_from_diagnosis v1.diagnosis = some sp)
    (h2 : severity_from_diagnosis v2.diagnosis = some sc) :
    (∃ iss ∈ analyze_timeline [v1, v2], iss.type = "diagnosis_drift".toList) ↔
      2 ≤ (sc - sp).natAbs := by
  rw [analyze_pair v1 v2 hd]
  constructor
  · rintro ⟨iss, hmem, htype⟩
    simp only [List.mem_append] at hmem
    rcases hmem with (hm | hm | hm) | hm
    · unfold drift_pair at hm
      rw [h1, h2] at hm
      dsimp only at hm
      by_cases hc : 2 ≤ (sc - sp).natAbs
      · exact hc
      · rw [if_neg hc] at hm; cases hm
    · have t := (mem_treatment_issues hm).1
      rw [htype] at t
      exact absurd t (by decide)
    · have t := (mem_treatment_issues hm).1
      rw [htype] at t
      exact absurd t (by decide)
    · have t := (mem_outcome_pair hm).1
      rw [htype] at t
      exact absurd t (by decide)
  · intro hc
    refine ⟨⟨"diagnosis_drift".toList, drift_message v1 v2, [v1.date, v2.date]⟩, ?_, rfl⟩
    simp only [List.mem_append]
    left; left
    unfold drift_pair
    rw [h1, h2]
    dsimp only
    rw [if_pos hc]
    exact List.mem_singleton.mpr rfl

def wit1a : Visit :=
  { date := 1, diagnosis := "prediabetes".toList, treatment := "metformin".toList }

def wit1b : Visit :=
  { date := 2, diagnosis := "nephropathy".toList, treatment := "metformin".toList }

theorem pass1_jump_iff_witness :
    ∃ iss ∈ analyze_timeline [wit1a, wit1b], iss.type = "diagnosis_drift".toList :=
  (pass1_jump_iff wit1a wit1b 1 3 (by decide) (by decide) (by decide)).mpr (by decide)

def cex3v : Visit :=
  { date := 4, diagnosis := "diabetes".toList, treatment := "metformin".toList,
    outcome_score := some 11 }

/-- C3 counterexample: a visit with outcome_score = 11 (outside [0,10])
produces no issue at all — the code has no invalid-outcome-score pass and
never emits a data_error issue. -/
theorem invalid_score_cex :
    cex3v.outcome_score = some 11 ∧ analyze_timeline [cex3v] = [] := by
  refine ⟨rfl, ?_⟩
  rw [analyze_single]
  decide

/-- C3 (amended): the analyzer contains no invalid-outcome-score pass:
every issue it ever emits has type diagnosis_drift,
treatment_contradiction or outcome_reversal, and in particular no
data_error issue is ever produced, for any visit list. -/
theorem no_data_error_issues (vs : List Visit) (iss : Issue)
    (h : iss ∈ analyze_timeline vs) :
    (iss.type = "diagnosis_drift".toList ∨
      iss.type = "treatment_contradiction".toList ∨
      iss.type = "outcome_reversal".toList) ∧
    iss.type ≠ "data_error".toList := by
  unfold analyze_timeline at h
  split at h
  · cases h
  · dsimp only at h
    simp only [List.mem_append] at h
    rcases h with ((h | h) | h) | h
    · have t := mem_pass_drift h
      exact ⟨Or.inl t, by rw [t]; decide⟩
    · have t := mem_pass_dip_spike h
      exact ⟨Or.inl t, by rw [t]; decide⟩
    · have t := mem_pass_treatment h
      exact ⟨Or.inr (Or.inl t), by rw [t]; decide⟩
    · have t := mem_pass_outcome h
      exact ⟨Or.inr (Or.inr t), by rw [t]; decide⟩

def wit3 : Visit :=
  { date := 5, diagnosis := "diabetes".toList, treatment := "none".toList }

def wit3Issue : Issue :=
  { type := "treatment_contradiction".toList, message := no_treatment_message wit3,
    related_dates := [5] }

theorem no_data_error_issues_witness :
    (wit3Issue.type = "diagnosis_drift".toList ∨
      wit3Issue.type = "treatment_contradiction".toList ∨
      wit3Issue.type = "outcome_reversal".toList) ∧
    wit3Issue.type ≠ "data_error".toList :=
  no_data_error_issues [wit3] wit3Issue (by decide)

def cex5a : Visit :=
  { date := 1, diagnosis := "diabetes".toList, treatment := "metformin".toList }

def cex5b : Visit :=
  { date := 2, diagnosis := "prediabetes".toList, treatment := "metformin".toList }

def cex5c : Visit :=
  { date := 3, diagnosis := "nephropathy".toList, treatment := "metformin".toList }

/-- C5 counterexample: with severities a = 2, b = 1, c = 3 the spike is
exactly one level above the pre-dip level (c = a + 1), which the claim
says must not fire; the code's condition is `s_next >= s_prev + 1`, so it
does fire the dip-then-spike issue. -/
theorem dip_spike_boundary_cex :
    severity_from_diagnosis cex5a.diagnosis = some 2 ∧
    severity_from_diagnosis cex5b.diagnosis = some 1 ∧
    severity_from_diagnosis cex5c.diagnosis = some 3 ∧
    ({ type := "diagnosis_drift".toList, message := missed_progression_message,
       related_dates := [1, 2, 3] } : Issue) ∈ analyze_timeline [cex5a, cex5b, cex5c] := by
  decide

/-- C5 (amended): for a date-sorted triple of visits with severities
a, b, c all defined, the analyzer emits the fixed-message dip-then-spike
diagnosis_drift issue (the only issue carrying three related dates) iff
a > b and c >= a + 1 — i.e. the spike need only reach one level above the
pre-dip level, and c = a + 1 fires. -/
theorem dip_spike_iff (v1 v2 v3 : Visit) (a b c : Int)
    (h12 : v1.date ≤ v2.date) (h23 : v2.date ≤ v3.date)
    (h1 : severity_from_diagnosis v1.diagnosis = some a)
    (h2 : severity_from_diagnosis v2.diagnosis = some b)
    (h3 : severity_from_diagnosis v3.diagnosis = some c) :
    (∃ iss ∈ analyze_timeline [v1, v2, v3], iss.related_dates.length = 3) ↔
      (b < a ∧ a + 1 ≤ c) := by
  rw [analyze_triple v1 v2 v3 h12 h23]
  constructor
  · rintro ⟨iss, hmem, hlen⟩
    simp only [List.mem_append] at hmem
    rcases hmem with (((hm | hm) | hm) | (hm | hm) | hm) | hm | hm
    · rw [(mem_drift_pair hm).2] at hlen; simp at hlen
    · rw [(mem_drift_pair hm).2] at hlen; simp at hlen
    · unfold dip_spike_triple at hm
      rw [h1, h2, h3] at hm
      dsimp only at hm
      by_cases hc : b < a ∧ a + 1 ≤ c
      · exact hc
      · rw [if_neg hc] at hm; cases hm
    · rw [(mem_treatment_issues hm).2] at hlen; simp at hlen
    · rw [(mem_treatment_issues hm).2] at hlen; simp at hlen
    · rw [(mem_treatment_issues hm).2] at hlen; simp at hlen
    · rw [(mem_outcome_pair hm).2] at hlen; simp at hlen
    · rw [(mem_outcome_pair hm).2] at hlen; simp at hlen
  · intro hc
    refine ⟨⟨"diagnosis_drift".toList, missed_progression_message,
      [v1.date, v2.date, v3.date]⟩, ?_, rfl⟩
    simp only [List.mem_append]
    left; left; right
    unfold dip_spike_triple
    rw [h1, h2, h3]
    dsimp only
    rw [if_pos hc]
    exact List.mem_singleton.mpr rfl

def wit5a : Visit :=
  { date := 1, diagnosis := "nephropathy".toList, treatment := "metformin".toList }

def wit5b : Visit :=
  { date := 2, diagnosis := "normal".toList, treatment := "metformin".toList }

def wit5c : Visit :=
  { date := 3, diagnosis := "advanced diabetic nephropathy".toList,
    treatment := "metformin".toList }

theorem dip_spike_iff_witness :
    ∃ iss ∈ analyze_timeline [wit5a, wit5b, wit5c], iss.related_dates.length = 3 :=
  (dip_spike_iff wit5a wit5b wit5c 3 0 4 (by decide) (by decide) (by decide)
    (by decide) (by decide)).mpr (by decide)

def cex2a : Visit :=
  { date := 1, diagnosis := "diabetes".toList, treatment := "metformin".toList,
    outcome_score := some 8 }

def cex2b : Visit :=
  { date := 2, diagnosis := "diabetes".toList, treatment := "metformin".toList,
    outcome_score := some (13 / 2) }

/-- C2 counterexample: consecutive visits with outcome scores 8.0 and 6.5
(a drop of 1.5, i.e. curr < prev − 1) produce no issue at all — the
code's outcome rule instead requires the score to rise by at least 1 and
the diagnosis to contain an improvement keyword, so the claimed
outcome_reversal issue is never emitted here. -/
theorem outcome_drop_cex :
    cex2a.outcome_score = some 8 ∧
    cex2b.outcome_score = some (13 / 2) ∧
    (13 / 2 : ℚ) < 8 - 1 ∧
    analyze_timeline [cex2a, cex2b] = [] := by
  refine ⟨rfl, rfl, by norm_num, ?_⟩
  rw [analyze_pair cex2a cex2b (by decide)]
  have hdp : drift_pair cex2a cex2b = [] := by decide
  have ht1 : treatment_issues cex2a = [] := by decide
  have ht2 : treatment_issues cex2b = [] := by decide
  have hop : outcome_pair cex2a cex2b = [] := by
    unfold outcome_pair
    rw [show cex2a.outcome_score = some 8 from rfl,
        show cex2b.outcome_score = some (13 / 2) from rfl]
    dsimp only
    split
    · next hcond => exact absurd hcond.1 (by norm_num)
    · rfl
  rw [hdp, ht1, ht2, hop]
  rfl

/-- C2 (amended): for a date-sorted pair of visits with both outcome
scores defined, the analyzer emits an outcome_reversal issue iff the
current score exceeds the previous one by at least 1 AND the current
visit's lowered diagnosis contains "improved", "controlled" or
"resolved"; a numeric drop never fires it. -/
theorem outcome_reversal_iff (v1 v2 : Visit) (p c : ℚ)
    (hd : v1.date ≤ v2.date)
    (h1 : v1.outcome_score = some p) (h2 : v2.outcome_score = some c) :
    (∃ iss ∈ analyze_timeline [v1, v2], iss.type = "outcome_reversal".toList) ↔
      (1 ≤ c - p ∧
        (containsSub "improved" (lower v2.diagnosis) = true ∨
          containsSub "controlled" (lower v2.diagnosis) = true ∨
          containsSub "resolved" (lower v2.diagnosis) = true)) := by
  rw [analyze_pair v1 v2 hd]
  constructor
  · rintro ⟨iss, hmem, htype⟩
    simp only [List.mem_append] at hmem
    rcases hmem with (hm | hm | hm) | hm
    · have t := (mem_drift_pair hm).1
      rw [htype] at t
      exact absurd t (by decide)
    · have t := (mem_treatment_issues hm).1
      rw [htype] at t
      exact absurd t (by decide)
    · have t := (mem_treatment_issues hm).1
      rw [htype] at t
      exact absurd t (by decide)
    · unfold outcome_pair at hm
      rw [h1, h2] at hm
      dsimp only at hm
      by_cases hc : 1 ≤ c - p ∧
          (containsSub "improved" (lower v2.diagnosis) = true ∨
            containsSub "controlled" (lower v2.diagnosis) = true ∨
            containsSub "resolved" (lower v2.diagnosis) = true)
      · exact hc
      · rw [if_neg hc] at hm; cases hm
  · intro hc
    refine ⟨⟨"outcome_reversal".toList, outcome_reversal_message v2,
      [v1.date, v2.date]⟩, ?_, rfl⟩
    simp only [List.mem_append]
    right
    unfold outcome_pair
    rw [h1, h2]
    dsimp only
    rw [if_pos hc]
    exact List.mem_singleton.mpr rfl

def wit2a : Visit :=
  { date := 1, diagnosis := "diabetes".toList, treatment := "metformin".toList,
    outcome_score := some 0 }

def wit2b : Visit :=
  { date := 2, diagnosis := "controlled diabetes".toList,
    treatment := "metformin".toList, outcome_score := some 1 }

theorem outcome_reversal_iff_witness :
    ∃ iss ∈ analyze_timeline [wit2a, wit2b], iss.type = "outcome_reversal".toList :=
  (outcome_reversal_iff wit2a wit2b 0 1 (by decide) rfl rfl).mpr
    ⟨by norm_num, Or.inr (Or.inl (by decide))⟩

theorem mild_ne_no_treatment (w v : Visit) :
    mild_treatment_message w ≠ no_treatment_message v := by
  intro e
  have h1 : (mild_treatment_message w).head? = (no_treatment_message v).head? := by
    rw [e]
  have h2 : ('H' : Char) = 'D' := Option.some.inj h1
  exact absurd h2 (by decide)

theorem aggressive_ne_no_treatment (w v : Visit) :
    aggressive_treatment_message w ≠ no_treatment_message v := by
  intro e
  have h1 : (aggressive_treatment_message w).head? = (no_treatment_message v).head? := by
    rw [e]
  have h2 : ('L' : Char) = 'D' := Option.some.inj h1
  exact absurd h2 (by decide)

def cex6 : Visit :=
  { date := 5, diagnosis := "diabetes".toList, treatment := "ketonone".toList }

/-- C6 counterexample: a visit of severity 2 whose treatment text
"ketonone" merely CONTAINS "none" as a substring (its trimmed, case-folded
form equals none of the four claimed strings) nevertheless fires the
"no treatment documented" rule — the code tests `"none" in treat`, not
exact equality. -/
theorem no_treatment_substring_cex :
    severity_from_diagnosis cex6.diagnosis = some 2 ∧
    strip (lower cex6.treatment) ≠ [] ∧
    strip (lower cex6.treatment) ≠ "none".toList ∧
    strip (lower cex6.treatment) ≠ "no treatment".toList ∧
    strip (lower cex6.treatment) ≠ "stopped medication".toList ∧
    analyze_timeline [cex6] =
      [{ type := "treatment_contradiction".toList,
         message := no_treatment_message cex6, related_dates := [5] }] := by decide

/-- C6 (amended): for a visit with defined severity ≥ 2, the
"no treatment documented" sub-rule fires iff the lowered treatment text
strips to the empty string, or contains "no treatment" as a substring, or
contains "none" as a substring; exact equality with the four claimed
strings is not required ("stopped medication", in particular, is not
checked at all). -/
theorem no_treatment_rule_iff (v : Visit) (sev : Int)
    (h : severity_from_diagnosis v.diagnosis = some sev) (h2 : 2 ≤ sev) :
    (({ type := "treatment_contradiction".toList,
        message := no_treatment_message v,
        related_dates := [v.date] } : Issue) ∈ analyze_timeline [v]) ↔
      (strip (lower v.treatment) = [] ∨
        containsSub "no treatment" (lower v.treatment) = true ∨
        containsSub "none" (lower v.treatment) = true) := by
  rw [analyze_single]
  unfold treatment_issues
  rw [h]
  dsimp only
  simp only [List.mem_append]
  constructor
  · rintro ((hm | hm) | hm)
    · revert hm
      split
      · intro hm
        have e := List.mem_singleton.mp hm
        exact absurd (congrArg Issue.message e).symm (mild_ne_no_treatment v v)
      · intro hm; cases hm
    · revert hm
      split
      · next hcond => intro _; exact hcond.2
      · intro hm; cases hm
    · revert hm
      split
      · next hcond => intro _; exact absurd hcond.1 (by omega)
      · intro hm; cases hm
  · intro hdisj
    left; right
    rw [if_pos ⟨h2, hdisj⟩]
    exact List.mem_singleton.mpr rfl

def wit6 : Visit :=
  { date := 9, diagnosis := "nephropathy".toList, treatment := " ".toList }

theorem no_treatment_rule_iff_witness :
    ({ type := "treatment_contradiction".toList,
       message := no_treatment_message wit6,
       related_dates := [9] } : Issue) ∈ analyze_timeline [wit6] :=
  (no_treatment_rule_iff wit6 3 (by decide) (by decide)).mpr (Or.inl (by decide))

theorem sorted_lt_of_sorted_le_nodup {l : List Visit}
    (hs : List.Sorted dateLe l) (hn : (l.map Visit.date).Nodup) :
    List.Sorted (fun a b : Visit => a.date < b.date) l := by
  have hne : l.Pairwise fun a b : Visit => a.date ≠ b.date := List.pairwise_map.mp hn
  exact (hs.and hne).imp fun hab => lt_of_le_of_ne hab.1 hab.2

theorem sortVisits_perm_eq {V W : List Visit} (hp : V.Perm W)
    (hnd : (V.map Visit.date).Nodup) : sortVisits V = sortVisits W := by
  have h1 : (sortVisits V).Perm (sortVisits W) :=
    ((List.perm_insertionSort dateLe V).trans hp).trans
      (List.perm_insertionSort dateLe W).symm
  have hndW : (W.map Visit.date).Nodup := ((hp.map Visit.date).nodup_iff).mp hnd
  have hndsV : ((sortVisits V).map Visit.date).Nodup :=
    (((List.perm_insertionSort dateLe V).map Visit.date).nodup_iff).mpr hnd
  have hndsW : ((sortVisits W).map Visit.date).Nodup :=
    (((List.perm_insertionSort dateLe W).map Visit.date).nodup_iff).mpr hndW
  exact List.eq_of_perm_of_sorted h1
    (sorted_lt_of_sorted_le_nodup (List.sorted_insertionSort dateLe V) hndsV)
    (sorted_lt_of_sorted_le_nodup (List.sorted_insertionSort dateLe W) hndsW)

def cex7a : Visit :=
  { date := 7, diagnosis := "diabetes".toList, treatment := "none".toList }

def cex7b : Visit :=
  { date := 7, diagnosis := "nephropathy".toList, treatment := "none".toList }

/-- C7 counterexample: two visits sharing the same date — the stable sort
keeps them in input order, so permuting the input permutes the per-visit
issues, and `analyze` is NOT invariant under all permutations. -/
theorem analyze_order_cex :
    [cex7b, cex7a].Perm [cex7a, cex7b] ∧
    analyze_timeline [cex7b, cex7a] ≠ analyze_timeline [cex7a, cex7b] :=
  ⟨List.Perm.swap cex7a cex7b [], by decide⟩

/-- C7 (amended): `analyze([]) = []`, and analysis is order-invariant for
every input whose visit dates are pairwise distinct: for such lists every
permutation yields the same issue list (with date ties the guarantee is
only up to the stable ordering of tied visits, as the counterexample
shows). -/
theorem analyze_perm_invariant :
    analyze_timeline ([] : List Visit) = [] ∧
    ∀ V W : List Visit, V.Perm W → (V.map Visit.date).Nodup →
      analyze_timeline V = analyze_timeline W := by
  refine ⟨by simp [analyze_timeline], fun V W hp hnd => ?_⟩
  by_cases hV : V = []
  · subst hV
    have hW : W = [] := hp.symm.eq_nil
    rw [hW]
  · have hW : W ≠ [] := fun e => hV (List.Perm.eq_nil (e ▸ hp))
    unfold analyze_timeline
    rw [if_neg hV, if_neg hW, sortVisits_perm_eq hp hnd]

def wit7a : Visit :=
  { date := 1, diagnosis := "diabetes".toList, treatment := "none".toList }

def wit7b : Visit :=
  { date := 2, diagnosis := "nephropathy".toList, treatment := "none".toList }

theorem analyze_perm_invariant_witness :
    analyze_timeline [wit7b, wit7a] = analyze_timeline [wit7a, wit7b] :=
  analyze_perm_invariant.2 [wit7b, wit7a] [wit7a, wit7b]
    (List.Perm.swap wit7a wit7b []) (by decide)

end LongDetector
